import Mathlib

/-
Verification of the fault-injection core (mock-error service) of the MockS3
repository.  The orchestrator `ErrorInjectorService` (AddErrorRule,
RemoveErrorRule, UpdateErrorRule, ShouldInjectError, InjectError,
GetErrorStats, ResetErrorStats, validateRule, updateRuleCounts, injectDelay,
injectNetworkError, injectDatabaseError, injectStorageError) is embedded
directly from the Go source.  The collaborators it calls — the models
package constants, the in-memory Rule Store and Stats Store repositories,
and the Rule Engine — are not part of the provided sources; they are
modelled from the specification (§3, §4.1, §4.2, §4.4) and marked as such
in their doc comments.  Failure of an engine write and the outcome of the
engine's rule evaluation (which involves randomness) are passed in as
explicit oracle parameters; the `select` between a timer and context
cancellation in delay injection is resolved by an explicit boolean oracle
saying which event fires first.
-/

set_option autoImplicit false

namespace MockError

/-- Modelled from the spec: the `models` package defining the action-type
string constants is not among the provided sources; §3 lists the eight
kinds.  Each constant is a distinct non-empty string tag. -/
def ErrorActionTypeHTTPError : String := "httpError"

/-- Modelled from the spec: action-type tag for network errors. -/
def ErrorActionTypeNetworkError : String := "networkError"

/-- Modelled from the spec: action-type tag for timeouts. -/
def ErrorActionTypeTimeout : String := "timeout"

/-- Modelled from the spec: action-type tag for delays. -/
def ErrorActionTypeDelay : String := "delay"

/-- Modelled from the spec: action-type tag for corruption. -/
def ErrorActionTypeCorruption : String := "corruption"

/-- Modelled from the spec: action-type tag for disconnects. -/
def ErrorActionTypeDisconnect : String := "disconnect"

/-- Modelled from the spec: action-type tag for database errors. -/
def ErrorActionTypeDatabaseError : String := "databaseError"

/-- Modelled from the spec: action-type tag for storage errors. -/
def ErrorActionTypeStorageError : String := "storageError"

/-- Modelled from the spec (§3): an `ErrorAction` carries a type tag, an
HTTP status code, a diagnostic message and an optional delay duration
(Go `*time.Duration`, i.e. nanoseconds as a signed 64-bit integer,
embedded as `Option Int`). -/
structure ErrorAction where
  type : String
  httpCode : Int
  message : String
  delay : Option Int
deriving DecidableEq, Repr

/-- Modelled from the spec (§3): a fault-injection rule.  Only the fields
the orchestrator reads are carried. -/
structure ErrorRule where
  id : String
  name : String
  service : String
  operation : String
  enabled : Bool
  priority : Int
  action : ErrorAction
  maxTriggers : Nat
  triggerCount : Nat
deriving DecidableEq, Repr

/-- Modelled from the spec (§3): the record of one triggered injection. -/
structure ErrorEvent where
  id : String
  service : String
  operation : String
  action : ErrorAction
  timestamp : Nat
  success : Bool
deriving DecidableEq, Repr

/-- Modelled from the spec (§4.4): the Stats Store holds recorded events
plus the rolling total/active rule counters set by `UpdateRuleCounts`. -/
structure StatsState where
  events : List ErrorEvent
  totalRules : Nat
  activeRules : Nat
deriving DecidableEq, Repr

/-- Modelled from the spec (§6): the configuration fields the orchestrator
reads. -/
structure Config where
  maxRules : Nat
  maxDelayMs : Nat
  enableNetworkErrors : Bool
  enableDatabaseErrors : Bool
  enableStorageErrors : Bool
deriving DecidableEq, Repr

/-- Combined state of the three collaborators the orchestrator mutates:
the Rule Store, the Rule Engine's own rule set, and the Stats Store. -/
structure SysState where
  store : List ErrorRule
  engine : List ErrorRule
  stats : StatsState
deriving DecidableEq, Repr

/-- One call made by the orchestrator to a collaborator, recorded in a
trace so that call order and absence of calls can be stated. -/
inductive CollabCall where
  | storeCount : CollabCall
  | storeCountActive : CollabCall
  | storeAdd : String → CollabCall
  | storeDelete : String → CollabCall
  | storeUpdate : String → CollabCall
  | storeList : CollabCall
  | engineAdd : String → CollabCall
  | engineRemove : String → CollabCall
  | engineUpdate : String → CollabCall
  | statsUpdateRuleCounts : Nat → Nat → CollabCall
  | statsGetStats : CollabCall
  | statsResetStats : CollabCall
  | statsRecordEvent : String → CollabCall
deriving DecidableEq, Repr

/-- Decidable equality for `Except`, used to evaluate orchestrator
results on concrete inputs. -/
instance exceptDecEq {q a : Type} [DecidableEq q] [DecidableEq a] :
    DecidableEq (Except q a) := fun x y =>
  match x, y with
  | .ok u, .ok v =>
      if h : u = v then .isTrue (by rw [h]) else .isFalse (by simp [h])
  | .error u, .error v =>
      if h : u = v then .isTrue (by rw [h]) else .isFalse (by simp [h])
  | .ok _, .error _ => .isFalse (by simp)
  | .error _, .ok _ => .isFalse (by simp)

/-- Outcome and final collaborator state of one orchestrator call,
together with the trace of collaborator calls it made. -/
structure StepResult (α : Type) where
  res : Except String α
  state : SysState
  trace : List CollabCall
deriving Repr

/-- Modelled from the spec (§4.1): Rule Store `Add` — insertion only if the
id is new, otherwise a failure. -/
def ruleStoreAdd (store : List ErrorRule) (rule : ErrorRule) :
    Except String (List ErrorRule) :=
  if store.any (fun r => r.id = rule.id) then .error "rule already exists"
  else .ok (store ++ [rule])

/-- Modelled from the spec (§4.1): Rule Store `Delete` — fails with a
not-found condition when the id is absent. -/
def ruleStoreDelete (store : List ErrorRule) (ruleID : String) :
    Except String (List ErrorRule) :=
  if store.any (fun r => r.id = ruleID) then
    .ok (store.filter (fun r => r.id ≠ ruleID))
  else .error "rule not found"

/-- Modelled from the spec (§4.1): Rule Store `Update` — fails with a
not-found condition when the id is absent. -/
def ruleStoreUpdate (store : List ErrorRule) (rule : ErrorRule) :
    Except String (List ErrorRule) :=
  if store.any (fun r => r.id = rule.id) then
    .ok (store.map (fun r => if r.id = rule.id then rule else r))
  else .error "rule not found"

/-- Modelled from the spec (§4.1): Rule Store `CountActive` counts the
enabled rules. -/
def countActive (store : List ErrorRule) : Nat :=
  (store.filter (fun r => r.enabled)).length

/-- Modelled from the spec (§4.2): the Rule Engine keeps its own in-memory
rule set; a successful `AddRule` appends to it.  Whether an engine write
fails is an oracle parameter of the orchestrator functions, and a failed
write leaves the engine set unchanged. -/
def engineAddOk (engine : List ErrorRule) (rule : ErrorRule) : List ErrorRule :=
  engine ++ [rule]

/-- Modelled from the spec (§4.2): a successful engine `RemoveRule` drops
the rule with the given id. -/
def engineRemoveOk (engine : List ErrorRule) (ruleID : String) : List ErrorRule :=
  engine.filter (fun r => r.id ≠ ruleID)

/-- Modelled from the spec (§4.2): a successful engine `UpdateRule`
replaces the rule with the same id. -/
def engineUpdateOk (engine : List ErrorRule) (rule : ErrorRule) : List ErrorRule :=
  engine.map (fun r => if r.id = rule.id then rule else r)

/-- Modelled from the spec (§4.4): Stats Store `RecordEvent` appends the
event. -/
def statsRecordEvent (s : StatsState) (event : ErrorEvent) : StatsState :=
  { s with events := s.events ++ [event] }

/-- Modelled from the spec (§4.4): Stats Store `ResetStats` clears the
recorded events. -/
def statsResetStats (s : StatsState) : StatsState :=
  { s with events := [] }

/-- The list of valid action types accepted by `validateRule`
(`validActionTypes` map in the source, all values `true`). -/
def validActionTypes : List String :=
  [ErrorActionTypeHTTPError, ErrorActionTypeNetworkError,
   ErrorActionTypeTimeout, ErrorActionTypeDelay,
   ErrorActionTypeCorruption, ErrorActionTypeDisconnect,
   ErrorActionTypeDatabaseError, ErrorActionTypeStorageError]

/-- Embedding of `ErrorInjectorService.validateRule`: name must be non-empty, the action
type must be one of the eight known tags, an httpError action must carry a
code in `[400, 600)`, and a present delay must not exceed
`MaxDelayMs` milliseconds (compared in nanoseconds). -/
def validateRule (cfg : Config) (rule : ErrorRule) : Option String :=
  if rule.name = "" then some "rule name is required"
  else if rule.action.type = "" then some "action type is required"
  else if ¬ (validActionTypes.contains rule.action.type) then
    some ("invalid action type: " ++ rule.action.type)
  else if rule.action.type = ErrorActionTypeHTTPError ∧
      (rule.action.httpCode < 400 ∨ rule.action.httpCode ≥ 600) then
    some "invalid HTTP code"
  else
    match rule.action.delay with
    | some d =>
        if d > (cfg.maxDelayMs : Int) * 1000000 then
          some "delay exceeds maximum allowed"
        else none
    | none => none

/-- Embedding of `ErrorInjectorService.updateRuleCounts`: read the total and active
counts from the Rule Store, then push them to the Stats Store (in the
source the push itself runs in a goroutine and its failure is only
logged; the successfully-applied effect is modelled). -/
def updateRuleCounts (st : SysState) : SysState × List CollabCall :=
  let total := st.store.length
  let active := countActive st.store
  ({ st with stats := { st.stats with totalRules := total, activeRules := active } },
   [.storeCount, .storeCountActive, .statsUpdateRuleCounts total active])

/-- The id assignment step of `AddErrorRule`: an empty id is replaced by a
freshly generated one (the external generator's output is the `genId`
parameter). -/
def assignId (genId : String) (rule : ErrorRule) : ErrorRule :=
  if rule.id = "" then { rule with id := genId } else rule

/-- Embedding of `ErrorInjectorService.AddErrorRule`: validate, enforce the `MaxRules`
ceiling, assign an id if absent, write to the Rule Store, then to the Rule
Engine; if the engine write fails (oracle `engineAddFails`), roll the store
write back with a compensating delete whose own error is ignored, and
return the engine failure. -/
def AddErrorRule (cfg : Config) (engineAddFails : Bool) (genId : String)
    (st : SysState) (rule : ErrorRule) : StepResult ErrorRule :=
  match validateRule cfg rule with
  | some e => ⟨.error ("invalid rule: " ++ e), st, []⟩
  | none =>
    if st.store.length ≥ cfg.maxRules then
      ⟨.error ("maximum number of rules reached: " ++ toString cfg.maxRules),
       st, [.storeCount]⟩
    else
      let rule1 := assignId genId rule
      match ruleStoreAdd st.store rule1 with
      | .error e =>
          ⟨.error ("failed to add rule: " ++ e), st,
           [.storeCount, .storeAdd rule1.id]⟩
      | .ok store1 =>
          if engineAddFails then
            let store2 :=
              match ruleStoreDelete store1 rule1.id with
              | .ok s => s
              | .error _ => store1
            ⟨.error "failed to add rule to engine", { st with store := store2 },
             [.storeCount, .storeAdd rule1.id, .engineAdd rule1.id,
              .storeDelete rule1.id]⟩
          else
            let st1 : SysState :=
              { st with store := store1, engine := engineAddOk st.engine rule1 }
            let (st2, tr) := updateRuleCounts st1
            ⟨.ok rule1, st2,
             [.storeCount, .storeAdd rule1.id, .engineAdd rule1.id] ++ tr⟩

/-- Embedding of `ErrorInjectorService.RemoveErrorRule`: delete from the Rule Store;
on store failure return the error without touching the engine; otherwise
remove from the engine, where a failure (oracle `engineRemoveFails`) is
only logged, then refresh the rule counts and return success. -/
def RemoveErrorRule (engineRemoveFails : Bool) (st : SysState)
    (ruleID : String) : StepResult Unit :=
  match ruleStoreDelete st.store ruleID with
  | .error e =>
      ⟨.error ("failed to remove rule: " ++ e), st, [.storeDelete ruleID]⟩
  | .ok store1 =>
      let engine1 :=
        if engineRemoveFails then st.engine else engineRemoveOk st.engine ruleID
      let st1 : SysState := { st with store := store1, engine := engine1 }
      let (st2, tr) := updateRuleCounts st1
      ⟨.ok (), st2, [.storeDelete ruleID, .engineRemove ruleID] ++ tr⟩

/-- Embedding of `ErrorInjectorService.UpdateErrorRule`: validate, update the Rule
Store, then the Rule Engine; an engine failure (oracle) is returned as an
error (no rollback on this path). -/
def UpdateErrorRule (cfg : Config) (engineUpdateFails : Bool) (st : SysState)
    (rule : ErrorRule) : StepResult Unit :=
  match validateRule cfg rule with
  | some e => ⟨.error ("invalid rule: " ++ e), st, []⟩
  | none =>
    match ruleStoreUpdate st.store rule with
    | .error e =>
        ⟨.error ("failed to update rule: " ++ e), st, [.storeUpdate rule.id]⟩
    | .ok store1 =>
        if engineUpdateFails then
          ⟨.error "failed to update rule in engine", { st with store := store1 },
           [.storeUpdate rule.id, .engineUpdate rule.id]⟩
        else
          let st1 : SysState :=
            { st with store := store1, engine := engineUpdateOk st.engine rule }
          ⟨.ok (), st1, [.storeUpdate rule.id, .engineUpdate rule.id]⟩

/-- Embedding of `ErrorInjectorService.ListErrorRules`: return the Rule Store's list. -/
def ListErrorRules (st : SysState) : StepResult (List ErrorRule) :=
  ⟨.ok st.store, st, [.storeList]⟩

/-- Embedding of `ErrorInjectorService.ShouldInjectError`: delegate to the engine
(whose evaluation outcome, involving randomness and engine-internal state,
is the oracle `evalResult`); on a match build an `ErrorEvent` and record it
asynchronously — a recording failure (oracle `recordFails`) is only
logged.  Returns the (action, matched) pair exactly as the engine produced
it. -/
def ShouldInjectError (evalResult : Option ErrorAction) (recordFails : Bool)
    (eventId : String) (now : Nat) (st : SysState)
    (service operation : String) :
    (Option ErrorAction × Bool) × SysState × List CollabCall :=
  match evalResult with
  | some action =>
      let event : ErrorEvent :=
        ⟨eventId, service, operation, action, now, true⟩
      let stats1 :=
        if recordFails then st.stats else statsRecordEvent st.stats event
      ((some action, true), { st with stats := stats1 },
       [.statsRecordEvent eventId])
  | none => ((none, false), st, [])

/-- Result of one `InjectError` call: success, a simulated injection
error, or the enclosing context's cancellation error. -/
inductive InjectResult where
  | ok : InjectResult
  | err : String → InjectResult
  | ctxError : InjectResult
deriving DecidableEq, Repr

/-- Embedding of `ErrorInjectorService.injectDelay`: a missing delay is a no-op;
otherwise the source selects between the delay timer and context
cancellation — the oracle `ctxDoneFirst` says which event fires first. -/
def injectDelay (ctxDoneFirst : Bool) (action : ErrorAction) : InjectResult :=
  match action.delay with
  | none => .ok
  | some _ => if ctxDoneFirst then .ctxError else .ok

/-- Embedding of `ErrorInjectorService.injectNetworkError`: a no-op unless network
error injection is enabled in configuration. -/
def injectNetworkError (cfg : Config) (action : ErrorAction) : InjectResult :=
  if ¬ cfg.enableNetworkErrors then .ok
  else .err ("network error injected: " ++ action.message)

/-- Embedding of `ErrorInjectorService.injectDatabaseError`: a no-op unless database
error injection is enabled in configuration. -/
def injectDatabaseError (cfg : Config) (action : ErrorAction) : InjectResult :=
  if ¬ cfg.enableDatabaseErrors then .ok
  else .err ("database error injected: " ++ action.message)

/-- Embedding of `ErrorInjectorService.injectStorageError`: a no-op unless storage
error injection is enabled in configuration. -/
def injectStorageError (cfg : Config) (action : ErrorAction) : InjectResult :=
  if ¬ cfg.enableStorageErrors then .ok
  else .err ("storage error injected: " ++ action.message)

/-- Embedding of `ErrorInjectorService.InjectError`: dispatch on the action type;
httpError is intentionally a no-op, and any type outside the five handled
cases yields an "unsupported action type" error. -/
def InjectError (cfg : Config) (ctxDoneFirst : Bool) (action : ErrorAction) :
    InjectResult :=
  if action.type = ErrorActionTypeDelay then injectDelay ctxDoneFirst action
  else if action.type = ErrorActionTypeHTTPError then .ok
  else if action.type = ErrorActionTypeNetworkError then
    injectNetworkError cfg action
  else if action.type = ErrorActionTypeDatabaseError then
    injectDatabaseError cfg action
  else if action.type = ErrorActionTypeStorageError then
    injectStorageError cfg action
  else .err ("unsupported action type: " ++ action.type)

/-- Embedding of `ErrorInjectorService.GetErrorStats`: refresh the rule counts from the
Rule Store, then read the Stats Store. -/
def GetErrorStats (st : SysState) : StepResult StatsState :=
  let (st1, tr) := updateRuleCounts st
  ⟨.ok st1.stats, st1, tr ++ [.statsGetStats]⟩

/-- Embedding of `ErrorInjectorService.ResetErrorStats`: clear the Stats Store (and
nothing else — in particular no rule-count refresh happens on this
path). -/
def ResetErrorStats (st : SysState) : StepResult Unit :=
  ⟨.ok (), { st with stats := statsResetStats st.stats }, [.statsResetStats]⟩

/-! Concrete fixtures used by witnesses and counterexamples. -/

/-- A sample configuration: room for ten rules, 5000 ms maximum delay,
network and storage injection enabled, database injection disabled. -/
def cfgStd : Config := ⟨10, 5000, true, false, true⟩

/-- An empty Stats Store. -/
def statsEmpty : StatsState := ⟨[], 0, 0⟩

/-- The empty system state. -/
def stEmpty : SysState := ⟨[], [], statsEmpty⟩

/-- A networkError action. -/
def actNet : ErrorAction := ⟨ErrorActionTypeNetworkError, 0, "boom", none⟩

/-- A databaseError action. -/
def actDb : ErrorAction := ⟨ErrorActionTypeDatabaseError, 0, "db down", none⟩

/-- A storageError action. -/
def actStorage : ErrorAction := ⟨ErrorActionTypeStorageError, 0, "disk gone", none⟩

/-- An httpError action with a valid code. -/
def actHttp : ErrorAction := ⟨ErrorActionTypeHTTPError, 503, "injected 503", none⟩

/-- A timeout action (accepted by validation, unsupported by
`InjectError`). -/
def actTimeout : ErrorAction := ⟨ErrorActionTypeTimeout, 0, "t", none⟩

/-- A delay action carrying a one-millisecond delay. -/
def actDelaySome : ErrorAction := ⟨ErrorActionTypeDelay, 0, "", some 1000000⟩

/-- A delay action with no delay duration. -/
def actDelayNone : ErrorAction := ⟨ErrorActionTypeDelay, 0, "", none⟩

/-- A rule whose action is a delay action with a missing duration. -/
def ruleDelayNone : ErrorRule :=
  ⟨"", "delay rule", "svc", "", true, 1, actDelayNone, 0, 0⟩

/-- A rule whose action has the timeout type. -/
def ruleTimeout : ErrorRule :=
  ⟨"", "timeout rule", "svc", "", true, 1, actTimeout, 0, 0⟩

/-- A rule with an httpError action whose code 200 lies outside
`[400, 599]`. -/
def ruleBadHttp : ErrorRule :=
  ⟨"", "http 200 rule", "svc", "", true, 1,
   ⟨ErrorActionTypeHTTPError, 200, "not an error", none⟩, 0, 0⟩

/-- A rule whose delay exceeds `cfgStd`'s 5000 ms maximum. -/
def ruleOverDelay : ErrorRule :=
  ⟨"", "slow rule", "svc", "", true, 1,
   ⟨ErrorActionTypeDelay, 0, "", some 6000000000⟩, 0, 0⟩

/-- A stored rule with id "a". -/
def ruleA : ErrorRule := ⟨"a", "rule a", "svc", "", true, 1, actHttp, 0, 0⟩

/-- A state holding one rule while the Stats Store's rule counters still
read zero. -/
def stOne : SysState := ⟨[ruleA], [ruleA], statsEmpty⟩


/-! Helper lemmas. -/

/-- A store whose members all miss an id is unchanged by filtering that id
out. -/
theorem filter_ne_of_any_eq_false (store : List ErrorRule) (ruleID : String)
    (h : store.any (fun r => r.id = ruleID) = false) :
    store.filter (fun r => r.id ≠ ruleID) = store := by
  have hm : ∀ r ∈ store, ¬ r.id = ruleID := by
    intro r hr
    by_contra hc
    have ht : store.any (fun r => r.id = ruleID) = true :=
      List.any_eq_true.mpr ⟨r, hr, by simpa using hc⟩
    simp [ht] at h
  exact List.filter_eq_self.mpr (fun a ha => by simpa using hm a ha)

/-- Deleting a freshly appended rule restores the original store. -/
theorem ruleStoreDelete_append_fresh (store : List ErrorRule) (rule : ErrorRule)
    (h : store.any (fun r => r.id = rule.id) = false) :
    ruleStoreDelete (store ++ [rule]) rule.id = .ok store := by
  unfold ruleStoreDelete
  rw [if_pos]
  · rw [List.filter_append, filter_ne_of_any_eq_false store rule.id h]
    simp
  · simp [List.any_append]

/-- C4: for networkError, databaseError and storageError actions,
`InjectError` returns a simulated error exactly when the corresponding
configuration flag is enabled (a no-op returning success otherwise), and
for httpError actions it is always a no-op returning success. -/
theorem injectError_flag_gating (cfg : Config) (b : Bool) (action : ErrorAction) :
    (action.type = ErrorActionTypeNetworkError →
      InjectError cfg b action =
        (if cfg.enableNetworkErrors then
          .err ("network error injected: " ++ action.message) else .ok)) ∧
    (action.type = ErrorActionTypeDatabaseError →
      InjectError cfg b action =
        (if cfg.enableDatabaseErrors then
          .err ("database error injected: " ++ action.message) else .ok)) ∧
    (action.type = ErrorActionTypeStorageError →
      InjectError cfg b action =
        (if cfg.enableStorageErrors then
          .err ("storage error injected: " ++ action.message) else .ok)) ∧
    (action.type = ErrorActionTypeHTTPError → InjectError cfg b action = .ok) := by
  obtain ⟨mr, md, en, ed, es⟩ := cfg
  refine ⟨fun h => ?_, fun h => ?_, fun h => ?_, fun h => ?_⟩ <;>
    · unfold InjectError injectNetworkError injectDatabaseError injectStorageError
      rw [h]
      cases en <;> cases ed <;> cases es <;>
        simp +decide [ErrorActionTypeDelay, ErrorActionTypeHTTPError,
          ErrorActionTypeNetworkError, ErrorActionTypeDatabaseError,
          ErrorActionTypeStorageError]

/-- Witness for C4 at concrete inputs: with `cfgStd` (network on, database
off, storage on) the three gated actions and the httpError action produce
exactly the gated outcomes. -/
theorem injectError_flag_gating_witness :
    InjectError cfgStd false actNet = .err "network error injected: boom" ∧
    InjectError cfgStd false actDb = .ok ∧
    InjectError cfgStd false actStorage = .err "storage error injected: disk gone" ∧
    InjectError cfgStd false actHttp = .ok := by
  refine ⟨?_, ?_, ?_, ?_⟩
  · have h := (injectError_flag_gating cfgStd false actNet).1 (by decide)
    simpa using h
  · have h := (injectError_flag_gating cfgStd false actDb).2.1 (by decide)
    simpa using h
  · have h := (injectError_flag_gating cfgStd false actStorage).2.2.1 (by decide)
    simpa using h
  · exact (injectError_flag_gating cfgStd false actHttp).2.2.2 (by decide)

/-- C6: the (action, matched) pair returned by `ShouldInjectError` equals
the engine's evaluation outcome and does not depend on whether the
statistics recording succeeds or fails. -/
theorem shouldInjectError_result_independent_of_recording
    (ev : Option ErrorAction) (recordFails : Bool) (eventId : String)
    (now : Nat) (st : SysState) (service operation : String) :
    (ShouldInjectError ev recordFails eventId now st service operation).1 =
      (ev, ev.isSome) := by
  cases ev <;> simp [ShouldInjectError]

/-- C8: for a delay action carrying a duration, `InjectError` returns the
context's cancellation error when the context is cancelled before the
delay elapses, and success when the delay elapses first. -/
theorem injectDelay_cancellation (cfg : Config) (action : ErrorAction) (d : Int)
    (ht : action.type = ErrorActionTypeDelay) (hd : action.delay = some d) :
    InjectError cfg true action = .ctxError ∧
    InjectError cfg false action = .ok := by
  unfold InjectError injectDelay
  rw [ht, hd]
  simp

/-- Witness for C8: a concrete delay action with a 1 ms duration. -/
theorem injectDelay_cancellation_witness :
    InjectError cfgStd true actDelaySome = .ctxError ∧
    InjectError cfgStd false actDelaySome = .ok :=
  injectDelay_cancellation cfgStd actDelaySome 1000000 rfl rfl

/-- C5 (amended): `GetErrorStats` reads the total/active counts from the
Rule Store and pushes them to the Stats Store before reading it, while
`ResetErrorStats` only clears the Stats Store and performs no rule-count
refresh. -/
theorem stats_refresh_semantics (st : SysState) :
    (GetErrorStats st).trace =
      [.storeCount, .storeCountActive,
       .statsUpdateRuleCounts st.store.length (countActive st.store),
       .statsGetStats] ∧
    (GetErrorStats st).state.stats.totalRules = st.store.length ∧
    (GetErrorStats st).state.stats.activeRules = countActive st.store ∧
    (GetErrorStats st).res = .ok (GetErrorStats st).state.stats ∧
    (ResetErrorStats st).trace = [.statsResetStats] ∧
    (ResetErrorStats st).state.stats.events = [] := by
  simp [GetErrorStats, ResetErrorStats, updateRuleCounts, statsResetStats]

/-- C5 counterexample: at a state holding one rule with stale zero
counters, `ResetErrorStats` consults neither `Count` nor `CountActive` on
the Rule Store and leaves the stale counters untouched, so it does not
refresh the rule counts before clearing the Stats Store. -/
theorem resetErrorStats_no_refresh_cex :
    (ResetErrorStats stOne).trace = [CollabCall.statsResetStats] ∧
    CollabCall.storeCount ∉ (ResetErrorStats stOne).trace ∧
    CollabCall.storeCountActive ∉ (ResetErrorStats stOne).trace ∧
    (ResetErrorStats stOne).res = .ok () ∧
    (ResetErrorStats stOne).state.stats.totalRules = 0 ∧
    (ResetErrorStats stOne).state.store.length = 1 := by decide

/-- C9: `RemoveErrorRule` returns success whenever the store deletion
succeeds, regardless of an engine-removal failure; when the id is absent
from the store it returns an error, leaves the state unchanged, and makes
no Rule Engine call. -/
theorem removeErrorRule_semantics (fails : Bool) (st : SysState)
    (ruleID : String) :
    (st.store.any (fun r => r.id = ruleID) = true →
      (RemoveErrorRule fails st ruleID).res = .ok ()) ∧
    (st.store.any (fun r => r.id = ruleID) = false →
      (RemoveErrorRule fails st ruleID).res =
        .error "failed to remove rule: rule not found" ∧
      (RemoveErrorRule fails st ruleID).state = st ∧
      (RemoveErrorRule fails st ruleID).trace = [.storeDelete ruleID]) := by
  constructor
  · intro h
    unfold RemoveErrorRule ruleStoreDelete
    rw [if_pos h]
  · intro h
    unfold RemoveErrorRule ruleStoreDelete
    rw [if_neg (by simp [h])]
    exact ⟨rfl, rfl, rfl⟩

/-- Witness for C9: removing the present id "a" succeeds even when the
engine removal fails, and removing the absent id "z" fails without an
engine call. -/
theorem removeErrorRule_semantics_witness :
    (RemoveErrorRule true stOne "a").res = .ok () ∧
    (RemoveErrorRule false stOne "z").res =
      .error "failed to remove rule: rule not found" :=
  ⟨(removeErrorRule_semantics true stOne "a").1 (by decide),
   ((removeErrorRule_semantics false stOne "z").2 (by decide)).1⟩

/-- Any rule carrying an over-limit delay fails validation (the delay
check applies whenever a delay is present, whatever the action type). -/
theorem validateRule_rejects_over_delay (cfg : Config) (rule : ErrorRule)
    (d : Int) (hd : rule.action.delay = some d)
    (hover : d > (cfg.maxDelayMs : Int) * 1000000) :
    ∃ e, validateRule cfg rule = some e := by
  unfold validateRule
  split
  · exact ⟨_, rfl⟩
  · split
    · exact ⟨_, rfl⟩
    · split
      · exact ⟨_, rfl⟩
      · split
        · exact ⟨_, rfl⟩
        · simp only [hd]
          rw [if_pos hover]
          exact ⟨_, rfl⟩

/-- When validation fails, `AddErrorRule` returns the validation error and
leaves the whole state untouched, making no collaborator call. -/
theorem addErrorRule_of_validation_failure (cfg : Config) (fails : Bool)
    (genId : String) (st : SysState) (rule : ErrorRule) (e : String)
    (hv : validateRule cfg rule = some e) :
    AddErrorRule cfg fails genId st rule =
      ⟨.error ("invalid rule: " ++ e), st, []⟩ := by
  unfold AddErrorRule
  rw [hv]

/-- When validation fails, `UpdateErrorRule` returns the validation error
and leaves the whole state untouched, making no collaborator call. -/
theorem updateErrorRule_of_validation_failure (cfg : Config) (fails : Bool)
    (st : SysState) (rule : ErrorRule) (e : String)
    (hv : validateRule cfg rule = some e) :
    UpdateErrorRule cfg fails st rule =
      ⟨.error ("invalid rule: " ++ e), st, []⟩ := by
  unfold UpdateErrorRule
  rw [hv]

/-- C3: for a rule that passes validation, when the store already holds at
least `MaxRules` rules `AddErrorRule` fails with the capacity error and
the state — in particular the store and its count — is unchanged. -/
theorem addErrorRule_capacity_error (cfg : Config) (fails : Bool)
    (genId : String) (st : SysState) (rule : ErrorRule)
    (hv : validateRule cfg rule = none)
    (hc : cfg.maxRules ≤ st.store.length) :
    (AddErrorRule cfg fails genId st rule).res =
      .error ("maximum number of rules reached: " ++ toString cfg.maxRules) ∧
    (AddErrorRule cfg fails genId st rule).state = st ∧
    (AddErrorRule cfg fails genId st rule).state.store.length =
      st.store.length := by
  unfold AddErrorRule
  rw [hv]
  rw [if_pos hc]
  exact ⟨rfl, rfl, rfl⟩

/-- Witness for C3: with the ceiling lowered to one rule, adding a second
valid rule fails with the capacity error and the count stays one. -/
theorem addErrorRule_capacity_error_witness :
    (AddErrorRule ⟨1, 5000, true, false, true⟩ false "rid-2" stOne ruleTimeout).res =
      .error "maximum number of rules reached: 1" ∧
    (AddErrorRule ⟨1, 5000, true, false, true⟩ false "rid-2" stOne ruleTimeout).state =
      stOne ∧
    (AddErrorRule ⟨1, 5000, true, false, true⟩ false "rid-2" stOne
        ruleTimeout).state.store.length = stOne.store.length :=
  addErrorRule_capacity_error ⟨1, 5000, true, false, true⟩ false "rid-2" stOne
    ruleTimeout (by decide) (by decide)

/-- C7 counterexample: a delay-type rule with a missing delay duration is
accepted by `validateRule` and successfully added by `AddErrorRule`, so a
missing delay does not cause a validation error as the claim states. -/
theorem delay_missing_accepted_cex :
    ruleDelayNone.action.type = ErrorActionTypeDelay ∧
    ruleDelayNone.action.delay = none ∧
    validateRule cfgStd ruleDelayNone = none ∧
    (AddErrorRule cfgStd false "rid-1" stEmpty ruleDelayNone).res =
      .ok { ruleDelayNone with id := "rid-1" } := by decide

/-- C7 (amended): validation rejects a rule whose (present) delay exceeds
the configured `MaxDelayMs`: `AddErrorRule` fails with a validation error
and the state is unchanged.  A missing delay, however, passes validation
even for delay-type actions. -/
theorem delay_over_limit_rejected (cfg : Config) (fails : Bool)
    (genId : String) (st : SysState) (rule : ErrorRule) (d : Int)
    (hd : rule.action.delay = some d)
    (hover : d > (cfg.maxDelayMs : Int) * 1000000) :
    (∃ e, (AddErrorRule cfg fails genId st rule).res =
      .error ("invalid rule: " ++ e)) ∧
    (AddErrorRule cfg fails genId st rule).state = st := by
  obtain ⟨e, he⟩ := validateRule_rejects_over_delay cfg rule d hd hover
  rw [addErrorRule_of_validation_failure cfg fails genId st rule e he]
  exact ⟨⟨e, rfl⟩, rfl⟩

/-- Witness for C7's amended theorem: a 6-second delay against a 5000 ms
ceiling is rejected and the state stays empty. -/
theorem delay_over_limit_rejected_witness :
    (∃ e, (AddErrorRule cfgStd false "rid-1" stEmpty ruleOverDelay).res =
      .error ("invalid rule: " ++ e)) ∧
    (AddErrorRule cfgStd false "rid-1" stEmpty ruleOverDelay).state = stEmpty :=
  delay_over_limit_rejected cfgStd false "rid-1" stEmpty ruleOverDelay
    6000000000 (by decide) (by decide)

/-- C10: every action typed timeout, corruption or disconnect draws the
"unsupported action type" error from `InjectError`, yet `validateRule`
accepts these three types; concretely, a timeout rule is added
successfully by `AddErrorRule` while `InjectError` can never execute its
action. -/
theorem unsupported_action_types :
    (∀ (cfg : Config) (b : Bool) (action : ErrorAction),
        action.type = ErrorActionTypeTimeout ∨
          action.type = ErrorActionTypeCorruption ∨
          action.type = ErrorActionTypeDisconnect →
        InjectError cfg b action =
          .err ("unsupported action type: " ++ action.type)) ∧
    validateRule cfgStd ruleTimeout = none ∧
    (AddErrorRule cfgStd false "rid-1" stEmpty ruleTimeout).res =
      .ok { ruleTimeout with id := "rid-1" } ∧
    InjectError cfgStd false actTimeout =
      .err "unsupported action type: timeout" := by
  refine ⟨?_, by decide, by decide, by decide⟩
  intro cfg b action h
  unfold InjectError
  rcases h with h | h | h <;>
    · rw [h]
      simp +decide [ErrorActionTypeDelay, ErrorActionTypeHTTPError,
        ErrorActionTypeNetworkError, ErrorActionTypeDatabaseError,
        ErrorActionTypeStorageError, ErrorActionTypeTimeout,
        ErrorActionTypeCorruption, ErrorActionTypeDisconnect]

/-- Witness for C10: the universal part applied to a concrete corruption
action. -/
theorem unsupported_action_types_witness :
    InjectError cfgStd true ⟨ErrorActionTypeCorruption, 0, "x", none⟩ =
      .err ("unsupported action type: " ++ ErrorActionTypeCorruption) :=
  unsupported_action_types.1 cfgStd true
    ⟨ErrorActionTypeCorruption, 0, "x", none⟩ (Or.inr (Or.inl rfl))

/-- A rule that passes validation has a non-empty name, a known non-empty
action type, and a compliant HTTP code when the action is httpError. -/
theorem validateRule_none_conditions (cfg : Config) (rule : ErrorRule)
    (h : validateRule cfg rule = none) :
    rule.name ≠ "" ∧ rule.action.type ≠ "" ∧
    validActionTypes.contains rule.action.type = true ∧
    ¬ (rule.action.type = ErrorActionTypeHTTPError ∧
        (rule.action.httpCode < 400 ∨ rule.action.httpCode ≥ 600)) := by
  unfold validateRule at h
  split at h
  · simp at h
  · split at h
    · simp at h
    · split at h
      · simp at h
      · split at h
        · simp at h
        · rename_i h1 h2 h3 h4
          exact ⟨h1, h2, not_not.mp h3, h4⟩

/-- A rule with a missing name, a missing or unknown action type, or an
out-of-range HTTP code on an httpError action is rejected by
`validateRule`. -/
theorem validateRule_some_of_bad (cfg : Config) (rule : ErrorRule)
    (h : rule.name = "" ∨ rule.action.type = "" ∨
        validActionTypes.contains rule.action.type = false ∨
        (rule.action.type = ErrorActionTypeHTTPError ∧
          (rule.action.httpCode < 400 ∨ rule.action.httpCode ≥ 600))) :
    ∃ e, validateRule cfg rule = some e := by
  cases hv : validateRule cfg rule with
  | some e => exact ⟨e, rfl⟩
  | none =>
      obtain ⟨h1, h2, h3, h4⟩ := validateRule_none_conditions cfg rule hv
      rcases h with h | h | h | h
      · exact absurd h h1
      · exact absurd h h2
      · rw [h3] at h; cases h
      · exact absurd h h4

/-- Capacity branch of `AddErrorRule`: a valid rule hitting the `MaxRules`
ceiling yields the capacity error with nothing written. -/
theorem addErrorRule_of_capacity (cfg : Config) (fails : Bool)
    (genId : String) (st : SysState) (rule : ErrorRule)
    (hv : validateRule cfg rule = none)
    (hc : cfg.maxRules ≤ st.store.length) :
    AddErrorRule cfg fails genId st rule =
      ⟨.error ("maximum number of rules reached: " ++ toString cfg.maxRules),
       st, [.storeCount]⟩ := by
  unfold AddErrorRule
  simp only [hv]
  rw [if_pos hc]

/-- Duplicate-id branch of `AddErrorRule`: the store insertion fails and
nothing is written. -/
theorem addErrorRule_of_dup_id (cfg : Config) (fails : Bool)
    (genId : String) (st : SysState) (rule : ErrorRule)
    (hv : validateRule cfg rule = none)
    (hc : st.store.length < cfg.maxRules)
    (hid : st.store.any (fun r => r.id = (assignId genId rule).id) = true) :
    AddErrorRule cfg fails genId st rule =
      ⟨.error "failed to add rule: rule already exists", st,
       [.storeCount, .storeAdd (assignId genId rule).id]⟩ := by
  unfold AddErrorRule ruleStoreAdd
  simp only [hv]
  rw [if_neg (by omega), if_pos hid]
  rfl

/-- Engine-failure branch of `AddErrorRule`: after a successful store
write, a failing engine write triggers the compensating delete, restoring
the original state, and the engine failure is returned. -/
theorem addErrorRule_of_engine_failure (cfg : Config) (genId : String)
    (st : SysState) (rule : ErrorRule)
    (hv : validateRule cfg rule = none)
    (hc : st.store.length < cfg.maxRules)
    (hid : st.store.any (fun r => r.id = (assignId genId rule).id) = false) :
    AddErrorRule cfg true genId st rule =
      ⟨.error "failed to add rule to engine", st,
       [.storeCount, .storeAdd (assignId genId rule).id,
        .engineAdd (assignId genId rule).id,
        .storeDelete (assignId genId rule).id]⟩ := by
  have hd := ruleStoreDelete_append_fresh st.store (assignId genId rule) hid
  unfold AddErrorRule ruleStoreAdd
  simp only [hv]
  rw [if_neg (by omega), if_neg (by simp [hid])]
  simp only [hd, if_true]

/-- Success branch of `AddErrorRule`: with a valid rule, free capacity, a
fresh id and a functioning engine, the call returns the stored rule. -/
theorem addErrorRule_success_res (cfg : Config) (genId : String)
    (st : SysState) (rule : ErrorRule)
    (hv : validateRule cfg rule = none)
    (hc : st.store.length < cfg.maxRules)
    (hid : st.store.any (fun r => r.id = (assignId genId rule).id) = false) :
    (AddErrorRule cfg false genId st rule).res = .ok (assignId genId rule) := by
  unfold AddErrorRule ruleStoreAdd
  simp only [hv]
  rw [if_neg (by omega), if_neg (by simp [hid])]
  rfl

/-- C1: when the engine write fails after a successful store write,
`AddErrorRule` rolls the store back with a compensating delete and returns
the engine error; and after any failed `AddErrorRule` call the Rule Store
and Rule Engine are exactly as before the call. -/
theorem addErrorRule_engine_failure_rollback :
    (∀ (cfg : Config) (genId : String) (st : SysState) (rule : ErrorRule),
        validateRule cfg rule = none →
        st.store.length < cfg.maxRules →
        st.store.any (fun r => r.id = (assignId genId rule).id) = false →
        (AddErrorRule cfg true genId st rule).res =
          .error "failed to add rule to engine" ∧
        (AddErrorRule cfg true genId st rule).state.store = st.store ∧
        (AddErrorRule cfg true genId st rule).state.engine = st.engine ∧
        (AddErrorRule cfg true genId st rule).trace =
          [.storeCount, .storeAdd (assignId genId rule).id,
           .engineAdd (assignId genId rule).id,
           .storeDelete (assignId genId rule).id]) ∧
    (∀ (cfg : Config) (fails : Bool) (genId : String) (st : SysState)
        (rule : ErrorRule) (e : String),
        (AddErrorRule cfg fails genId st rule).res = .error e →
        (AddErrorRule cfg fails genId st rule).state.store = st.store ∧
        (AddErrorRule cfg fails genId st rule).state.engine = st.engine) := by
  constructor
  · intro cfg genId st rule hv hc hid
    rw [addErrorRule_of_engine_failure cfg genId st rule hv hc hid]
    exact ⟨rfl, rfl, rfl, rfl⟩
  · intro cfg fails genId st rule e h
    cases hv : validateRule cfg rule with
    | some e2 =>
        rw [addErrorRule_of_validation_failure cfg fails genId st rule e2 hv]
        exact ⟨rfl, rfl⟩
    | none =>
        by_cases hcap : cfg.maxRules ≤ st.store.length
        · rw [addErrorRule_of_capacity cfg fails genId st rule hv hcap]
          exact ⟨rfl, rfl⟩
        · have hc : st.store.length < cfg.maxRules := by omega
          by_cases hid :
              st.store.any (fun r => r.id = (assignId genId rule).id) = true
          · rw [addErrorRule_of_dup_id cfg fails genId st rule hv hc hid]
            exact ⟨rfl, rfl⟩
          · have hidf :
                st.store.any (fun r => r.id = (assignId genId rule).id) = false := by
              simpa using hid
            cases fails with
            | true =>
                rw [addErrorRule_of_engine_failure cfg genId st rule hv hc hidf]
                exact ⟨rfl, rfl⟩
            | false =>
                rw [addErrorRule_success_res cfg genId st rule hv hc hidf] at h
                cases h

/-- Witness for C1: adding a fresh valid rule to the empty state with a
failing engine returns the engine error and leaves store and engine
empty. -/
theorem addErrorRule_engine_failure_rollback_witness :
    ((AddErrorRule cfgStd true "rid-1" stEmpty ruleTimeout).res =
        .error "failed to add rule to engine" ∧
      (AddErrorRule cfgStd true "rid-1" stEmpty ruleTimeout).state.store =
        stEmpty.store ∧
      (AddErrorRule cfgStd true "rid-1" stEmpty ruleTimeout).state.engine =
        stEmpty.engine ∧
      (AddErrorRule cfgStd true "rid-1" stEmpty ruleTimeout).trace =
        [.storeCount, .storeAdd "rid-1", .engineAdd "rid-1",
         .storeDelete "rid-1"]) ∧
    ((AddErrorRule cfgStd true "rid-1" stEmpty ruleTimeout).state.store =
        stEmpty.store ∧
      (AddErrorRule cfgStd true "rid-1" stEmpty ruleTimeout).state.engine =
        stEmpty.engine) := by
  have h1 := addErrorRule_engine_failure_rollback.1 cfgStd "rid-1" stEmpty
    ruleTimeout (by decide) (by decide) (by decide)
  have h2 := addErrorRule_engine_failure_rollback.2 cfgStd true "rid-1" stEmpty
    ruleTimeout "failed to add rule to engine" h1.1
  exact ⟨h1, h2⟩

/-- C2: a rule with a missing name, a missing or unknown action type, or
an httpError action whose code lies outside `[400, 599]` makes both
`AddErrorRule` and `UpdateErrorRule` fail with a validation error while
the entire state is untouched, so `ListErrorRules` afterwards still
returns the original store contents. -/
theorem validation_rejection_never_persists (cfg : Config)
    (failsA failsU : Bool) (genId : String) (st : SysState)
    (rule : ErrorRule)
    (h : rule.name = "" ∨ rule.action.type = "" ∨
        validActionTypes.contains rule.action.type = false ∨
        (rule.action.type = ErrorActionTypeHTTPError ∧
          (rule.action.httpCode < 400 ∨ rule.action.httpCode ≥ 600))) :
    (∃ e, (AddErrorRule cfg failsA genId st rule).res =
      .error ("invalid rule: " ++ e)) ∧
    (AddErrorRule cfg failsA genId st rule).state = st ∧
    (∃ e, (UpdateErrorRule cfg failsU st rule).res =
      .error ("invalid rule: " ++ e)) ∧
    (UpdateErrorRule cfg failsU st rule).state = st ∧
    (ListErrorRules (AddErrorRule cfg failsA genId st rule).state).res =
      .ok st.store := by
  obtain ⟨e, he⟩ := validateRule_some_of_bad cfg rule h
  rw [addErrorRule_of_validation_failure cfg failsA genId st rule e he,
      updateErrorRule_of_validation_failure cfg failsU st rule e he]
  exact ⟨⟨e, rfl⟩, rfl, ⟨e, rfl⟩, rfl, rfl⟩

/-- Witness for C2: the rule with `httpCode = 200` is rejected by both
calls and the empty state stays empty. -/
theorem validation_rejection_never_persists_witness :
    (∃ e, (AddErrorRule cfgStd false "rid-1" stEmpty ruleBadHttp).res =
      .error ("invalid rule: " ++ e)) ∧
    (AddErrorRule cfgStd false "rid-1" stEmpty ruleBadHttp).state = stEmpty ∧
    (∃ e, (UpdateErrorRule cfgStd false stEmpty ruleBadHttp).res =
      .error ("invalid rule: " ++ e)) ∧
    (UpdateErrorRule cfgStd false stEmpty ruleBadHttp).state = stEmpty ∧
    (ListErrorRules (AddErrorRule cfgStd false "rid-1" stEmpty
        ruleBadHttp).state).res = .ok stEmpty.store :=
  validation_rejection_never_persists cfgStd false false "rid-1" stEmpty
    ruleBadHttp (Or.inr (Or.inr (Or.inr ⟨by decide, by decide⟩)))

end MockError
